import Mathlib

/-!
Verification development for the http-keepalive repository.

The Go sources are shallowly embedded: bytes are `Nat` (each in 0..255 when
read from a `[]byte`), Go slices are a list of in-length elements plus the
spare capacity bytes, Go strings are Lean `String`, and `http.Header` is a
map from (canonical) header names to lists of values.  Functions returning
`error` or able to panic return an explicit outcome type.
-/

set_option maxRecDepth 4096

/-- Outcome of running a Go function: normal value, returned `error`,
runtime panic, or divergence (an infinite loop). -/
inductive GoOutcome (α : Type) where
  | ok (val : α)
  | err (msg : String)
  | goPanic (msg : String)
  | diverge
deriving DecidableEq, Repr

/-- A Go byte slice: `elems` are the bytes inside the length, `extra` the
bytes between length and capacity of the underlying array. -/
structure GoSlice where
  elems : List Nat
  extra : List Nat
deriving DecidableEq, Repr

/-- Go `len`. -/
def GoSlice.len (s : GoSlice) : Nat := s.elems.length

/-- Go `cap`. -/
def GoSlice.cap (s : GoSlice) : Nat := s.elems.length + s.extra.length

/-- All bytes of the underlying array up to capacity. -/
def GoSlice.full (s : GoSlice) : List Nat := s.elems ++ s.extra

/-- Go indexing `s[i]` (used only under an in-length bounds guard). -/
def GoSlice.byte (s : GoSlice) (i : Nat) : Nat := s.elems.getD i 0

/-- Go reslicing `s[lo:hi]`: legal iff `lo ≤ hi ≤ cap` (Go bounds-checks a
slice expression against the capacity, not the length); `none` models the
out-of-range panic. -/
def GoSlice.sliceRange (s : GoSlice) (lo hi : Nat) : Option (List Nat) :=
  if lo ≤ hi ∧ hi ≤ s.cap then some ((s.full.drop lo).take (hi - lo)) else none

/-- binary.BigEndian.Uint16. -/
def beUint16 (b0 b1 : Nat) : Nat := b0 * 256 + b1

/-- binary.BigEndian.Uint32. -/
def beUint32 (b0 b1 b2 b3 : Nat) : Nat := ((b0 * 256 + b1) * 256 + b2) * 256 + b3

/-- TCPResponse from server.go / structures.go. -/
structure TCPResponse where
  SourcePort : Nat
  DestinationPort : Nat
  SequenceNumber : Nat
  AckNumber : Nat
  DataOffset : Nat
  Flags : Nat
  WindowSize : Nat
  Checksum : Nat
  UrgentPointer : Nat
  SYNFlag : Bool
  ACKFlag : Bool
  FINFlag : Bool
  RSTFlag : Bool
  PSHFlag : Bool
  URGFlag : Bool
  ECEFlag : Bool
  CWRFlag : Bool
  TCPOptions : List Nat
deriving DecidableEq, Repr

/-- The record construction of `analyzeTCPResponse` (server.go): the fixed
20-byte header fields, with `TCPOptions` still nil. -/
def decodeTCPHeader (buf : GoSlice) : TCPResponse :=
  { SourcePort := beUint16 (buf.byte 0) (buf.byte 1)
    DestinationPort := beUint16 (buf.byte 2) (buf.byte 3)
    SequenceNumber := beUint32 (buf.byte 4) (buf.byte 5) (buf.byte 6) (buf.byte 7)
    AckNumber := beUint32 (buf.byte 8) (buf.byte 9) (buf.byte 10) (buf.byte 11)
    DataOffset := (Nat.shiftRight (buf.byte 12) 4) * 4
    Flags := buf.byte 13
    WindowSize := beUint16 (buf.byte 14) (buf.byte 15)
    Checksum := beUint16 (buf.byte 16) (buf.byte 17)
    UrgentPointer := beUint16 (buf.byte 18) (buf.byte 19)
    SYNFlag := Nat.land (buf.byte 13) 0x02 != 0
    ACKFlag := Nat.land (buf.byte 13) 0x10 != 0
    FINFlag := Nat.land (buf.byte 13) 0x01 != 0
    RSTFlag := Nat.land (buf.byte 13) 0x04 != 0
    PSHFlag := Nat.land (buf.byte 13) 0x08 != 0
    URGFlag := Nat.land (buf.byte 13) 0x20 != 0
    ECEFlag := Nat.land (buf.byte 13) 0x40 != 0
    CWRFlag := Nat.land (buf.byte 13) 0x80 != 0
    TCPOptions := [] }

/-- How one iteration of the `parseTCPOptions` loop (server.go) ends. -/
inductive OptStep where
  | cont (next : Nat)
  | truncate
  | panicStep
deriving DecidableEq, Repr

/-- One iteration of the option-walking loop of `parseTCPOptions`
(server.go, the switch on the Kind byte), at loop index `i < options.length`.
Kind 5 slices `options[i+2 : i+sackLen]`, which panics when `sackLen < 2`
(slice low bound above high bound). -/
def optStep (options : List Nat) (i : Nat) : OptStep :=
  let n := options.length
  let opt := options.getD i 0
  if opt = 0 then OptStep.cont (i + 1)
  else if opt = 1 then OptStep.cont (i + 1)
  else if opt = 2 then
    if i + 3 ≥ n then OptStep.truncate else OptStep.cont (i + 4)
  else if opt = 3 then
    if i + 2 ≥ n then OptStep.truncate else OptStep.cont (i + 3)
  else if opt = 4 then OptStep.cont (i + 2)
  else if opt = 5 then
    if i + 1 ≥ n ∨ i + options.getD (i + 1) 0 > n then OptStep.truncate
    else if i + 2 > i + options.getD (i + 1) 0 then OptStep.panicStep
    else OptStep.cont (i + options.getD (i + 1) 0)
  else if opt = 8 then
    if i + 9 ≥ n then OptStep.truncate else OptStep.cont (i + 10)
  else
    if i + 1 ≥ n ∨ i + options.getD (i + 1) 0 > n then OptStep.truncate
    else OptStep.cont (i + options.getD (i + 1) 0)

/-- Overall result of the option-parsing loop. `done` is normal loop exit,
`truncated` the early `return` on a length that would overrun (non-fatal in
the caller), `panicked` a runtime panic, `diverged` an infinite loop. -/
inductive ParseOutcome where
  | done
  | truncated
  | panicked
  | diverged
deriving DecidableEq, Repr

/-- Fuel-indexed run of the `parseTCPOptions` loop from index `i`. -/
def runOpts (options : List Nat) : Nat → Nat → ParseOutcome
  | 0, _ => ParseOutcome.diverged
  | fuel + 1, i =>
    if i < options.length then
      match optStep options i with
      | OptStep.cont j => runOpts options fuel j
      | OptStep.truncate => ParseOutcome.truncated
      | OptStep.panicStep => ParseOutcome.panicked
    else ParseOutcome.done

/-- parseTCPOptions (server.go).  Fuel `length + 1` is exact: every
continuing step either advances the index by at least one (so a terminating
run makes at most `length + 1` iterations), or leaves it unchanged — only the
generic-Kind arm with declared length byte 0 — and then the deterministic
loop repeats the same state forever, which `ParseOutcome.diverged` records. -/
def parseTCPOptions (options : List Nat) : ParseOutcome :=
  runOpts options (options.length + 1) 0

/-- analyzeTCPResponse (server.go): length guard, fixed-header decode, then
optional options slice `buf[20:DataOffset]` and a call to
`parseTCPOptions`, whose panic or divergence aborts the whole call. -/
def analyzeTCPResponse (buf : GoSlice) : GoOutcome TCPResponse :=
  if buf.len < 20 then GoOutcome.err "Invalid TCP packet length\n"
  else
    let response := decodeTCPHeader buf
    if response.DataOffset > 20 then
      match buf.sliceRange 20 response.DataOffset with
      | none => GoOutcome.goPanic "slice bounds out of range"
      | some opts =>
        let response := { response with TCPOptions := opts }
        match parseTCPOptions opts with
        | ParseOutcome.panicked => GoOutcome.goPanic "slice bounds out of range"
        | ParseOutcome.diverged => GoOutcome.diverge
        | _ => GoOutcome.ok response
    else GoOutcome.ok response

/-- The spec's 20-byte example buffer
`0050 01BB 00000001 00000002 50 18 00FF FFFF 0000 0000`. -/
def sampleTCPBuffer : GoSlice :=
  ⟨[0x00, 0x50, 0x01, 0xBB, 0x00, 0x00, 0x00, 0x01, 0x00, 0x00, 0x00, 0x02,
    0x50, 0x18, 0x00, 0xFF, 0xFF, 0xFF, 0x00, 0x00], []⟩

/-- The decoded record of `sampleTCPBuffer`. -/
def sampleTCPDecoded : TCPResponse :=
  { SourcePort := 80, DestinationPort := 443, SequenceNumber := 1, AckNumber := 2,
    DataOffset := 20, Flags := 0x18, WindowSize := 255, Checksum := 65535,
    UrgentPointer := 0, SYNFlag := false, ACKFlag := true, FINFlag := false,
    RSTFlag := false, PSHFlag := true, URGFlag := false, ECEFlag := false,
    CWRFlag := false, TCPOptions := [] }

/-- A 20-byte buffer with no spare capacity whose data-offset nibble is 15
(DataOffset 60): the slice `buf[20:60]` is out of range for capacity 20. -/
def tightTCPBuffer : GoSlice :=
  ⟨[0, 0, 0, 0, 0, 0, 0, 0, 0, 0, 0, 0, 0xF0, 0, 0, 0, 0, 0, 0, 0], []⟩

/-- A 24-byte buffer with DataOffset 24 whose options bytes are a SACK
option (Kind 5) with declared length byte 0. -/
def sackPanicTCPBuffer : GoSlice :=
  ⟨[0, 0, 0, 0, 0, 0, 0, 0, 0, 0, 0, 0, 0x60, 0, 0, 0, 0, 0, 0, 0,
    5, 0, 0, 0], []⟩

/-- A 24-byte buffer with DataOffset 24 whose options bytes are an
unknown-Kind option (Kind 254) with declared length byte 0. -/
def loopTCPBuffer : GoSlice :=
  ⟨[0, 0, 0, 0, 0, 0, 0, 0, 0, 0, 0, 0, 0x60, 0, 0, 0, 0, 0, 0, 0,
    254, 0, 0, 0], []⟩

/-- A 24-byte buffer with DataOffset 24 whose options bytes are four NOP
options. -/
def nopTCPBuffer : GoSlice :=
  ⟨[0, 0, 0, 0, 0, 0, 0, 0, 0, 0, 0, 0, 0x60, 0, 0, 0, 0, 0, 0, 0,
    1, 1, 1, 1], []⟩

/-- Go strings.ToLower (the header signatures matched are all ASCII). -/
def goToLower (s : String) : String := String.mk (s.toList.map Char.toLower)

/-- Whether `needle` occurs as a contiguous run inside `haystack`. -/
def listInfix (needle : List Char) : List Char → Bool
  | [] => needle.isEmpty
  | c :: tl => needle.isPrefixOf (c :: tl) || listInfix needle tl

/-- Go strings.Contains: `sub` occurs as a substring of `s`. -/
def goContains (s sub : String) : Bool := listInfix sub.toList s.toList

/-- Go net/http Header: a map from (canonical) header names to the ordered
list of that header's values. -/
structure Header where
  vals : String → List String

/-- http.Header.Get: the first value for the key, or "" when absent. -/
def Header.get (h : Header) (k : String) : String := (h.vals k).headD ""

/-- A concrete header map from an association list (absent keys → nil). -/
def Header.ofList (l : List (String × List String)) : Header :=
  ⟨fun k => (List.lookup k l).getD []⟩

/-- CDNDetection from internal/http/types.go. -/
structure CDNDetection where
  Provider : String
  Detected : Bool
  Confidence : String
  Evidence : List String
  PrimaryEvidence : String
deriving DecidableEq, Repr

/-- The zero-match detection value every detector starts from. -/
def cdnDefault (name : String) : CDNDetection :=
  { Provider := name, Detected := false, Confidence := "Low",
    Evidence := [], PrimaryEvidence := "" }

/-- detectCloudflareWithConfidence (internal/http/types.go). -/
def detectCloudflareWithConfidence (headers : Header) : CDNDetection :=
  let detection := cdnDefault "Cloudflare"
  let cfRay := headers.get "CF-Ray"
  if cfRay != "" then
    { detection with
        Detected := true, Confidence := "High",
        Evidence := detection.Evidence ++ ["CF-Ray header present"],
        PrimaryEvidence := "CF-Ray: " ++ cfRay }
  else
    let cfCacheStatus := headers.get "CF-Cache-Status"
    if cfCacheStatus != "" then
      { detection with
          Detected := true, Confidence := "High",
          Evidence := detection.Evidence ++ ["CF-Cache-Status header present"],
          PrimaryEvidence := "CF-Cache-Status: " ++ cfCacheStatus }
    else
      let cfConnectingIP := headers.get "CF-Connecting-IP"
      let detection :=
        if cfConnectingIP != "" then
          { detection with
              Detected := true, Confidence := "Medium",
              Evidence := detection.Evidence ++ ["CF-Connecting-IP header present"],
              PrimaryEvidence := "CF-Connecting-IP: " ++ cfConnectingIP }
        else detection
      let cfIPCountry := headers.get "CF-IPCountry"
      let detection :=
        if cfIPCountry != "" then
          { detection with
              Detected := true, Confidence := "Medium",
              Evidence := detection.Evidence ++ ["CF-IPCountry header present"],
              PrimaryEvidence :=
              if detection.PrimaryEvidence = "" then "CF-IPCountry: " ++ cfIPCountry
              else detection.PrimaryEvidence }
        else detection
      let server := headers.get "Server"
      let detection :=
        if goContains (goToLower server) "cloudflare" then
          { detection with
              Detected := true,
              Confidence := if detection.Confidence = "Low" then "Medium" else detection.Confidence,
              Evidence := detection.Evidence ++ ["Server header contains \x27cloudflare\x27"],
              PrimaryEvidence :=
              if detection.PrimaryEvidence = "" then "Server: " ++ server
              else detection.PrimaryEvidence }
        else detection
      detection

/-- detectCloudFrontWithConfidence (internal/http/types.go). -/
def detectCloudFrontWithConfidence (headers : Header) : CDNDetection :=
  let detection := cdnDefault "CloudFront"
  let cfRequestId := headers.get "X-Amz-Cf-Id"
  if cfRequestId != "" then
    { detection with
        Detected := true, Confidence := "High",
        Evidence := detection.Evidence ++ ["X-Amz-Cf-Id header present"],
        PrimaryEvidence := "X-Amz-Cf-Id: " ++ cfRequestId }
  else
    let via := headers.get "Via"
    let detection :=
      if goContains (goToLower via) "cloudfront" then
        { detection with
            Detected := true, Confidence := "Medium",
            Evidence := detection.Evidence ++ ["Via header contains \x27cloudfront\x27"],
            PrimaryEvidence := "Via: " ++ via }
      else detection
    let xCache := headers.get "X-Cache"
    let detection :=
      if goContains (goToLower xCache) "cloudfront" then
        { detection with
            Detected := true, Confidence := "Medium",
            Evidence := detection.Evidence ++ ["X-Cache header contains \x27cloudfront\x27"],
            PrimaryEvidence :=
            if detection.PrimaryEvidence = "" then "X-Cache: " ++ xCache
            else detection.PrimaryEvidence }
      else detection
    let cookies := headers.vals "Set-Cookie"
    let detection :=
      match cookies.find? (fun cookie => goContains cookie "AWSALB" || goContains cookie "AWSALBCORS") with
      | some _ =>
        { detection with
            Detected := true,
            Confidence := if detection.Confidence = "Low" then "Medium" else detection.Confidence,
            Evidence := detection.Evidence ++ ["AWS Load Balancer cookie present"],
            PrimaryEvidence :=
            if detection.PrimaryEvidence = "" then "AWS ALB Cookie detected"
            else detection.PrimaryEvidence }
      | none => detection
    detection

/-- The Akamai High-tier header/description pairs, in the textual order of
the Go map literal (Go randomizes map iteration order; none of the proved
properties depends on this order). -/
def akamaiHighHeaders : List (String × String) :=
  [("X-Akamai-Transformed", "X-Akamai-Transformed header"),
   ("X-Akamai-Session-Info", "X-Akamai-Session-Info header"),
   ("Akamai-Origin-Hop", "Akamai-Origin-Hop header"),
   ("X-Akamai-Staging", "X-Akamai-Staging header"),
   ("X-Akamai-Edge-IP", "X-Akamai-Edge-IP header"),
   ("X-Akamai-Request-ID", "X-Akamai-Request-ID header"),
   ("X-Akamai-Config-Log-Detail", "X-Akamai-Config-Log-Detail header")]

/-- detectAkamaiWithConfidence (internal/http/types.go). -/
def detectAkamaiWithConfidence (headers : Header) : CDNDetection :=
  let detection := cdnDefault "Akamai"
  match akamaiHighHeaders.find? (fun p => headers.get p.1 != "") with
  | some p =>
    { detection with
        Detected := true, Confidence := "High",
        Evidence := detection.Evidence ++ [p.2 ++ " present"],
        PrimaryEvidence := p.1 ++ ": " ++ headers.get p.1 }
  | none =>
    let trueClientIP := headers.get "True-Client-IP"
    let detection :=
      if trueClientIP != "" then
        { detection with
            Detected := true, Confidence := "Medium",
            Evidence := detection.Evidence ++ ["True-Client-IP header present"],
            PrimaryEvidence := "True-Client-IP: " ++ trueClientIP }
      else detection
    let server := headers.get "Server"
    let detection :=
      if goContains (goToLower server) "akamai" then
        { detection with
            Detected := true,
            Confidence := if detection.Confidence = "Low" then "Medium" else detection.Confidence,
            Evidence := detection.Evidence ++ ["Server header contains \x27akamai\x27"],
            PrimaryEvidence :=
            if detection.PrimaryEvidence = "" then "Server: " ++ server
            else detection.PrimaryEvidence }
      else detection
    detection

/-- hasFastlyIndicators (internal/http/types.go): at least 2 of 7 common
headers present. -/
def hasFastlyIndicators (headers : Header) : Bool :=
  let indicators : Nat :=
    (if headers.get "X-Served-By" != "" then 1 else 0) +
    (if headers.get "X-Cache" != "" then 1 else 0) +
    (if headers.get "X-Timer" != "" then 1 else 0) +
    (if headers.get "Age" != "" then 1 else 0) +
    (if headers.get "Via" != "" then 1 else 0) +
    (if headers.get "Cache-Control" != "" then 1 else 0) +
    (if headers.get "Vary" != "" then 1 else 0)
  decide (indicators ≥ 2)

/-- The Fastly-specific High-tier header names (internal/http/types.go). -/
def fastlyHighHeaders : List String :=
  ["Fastly-Debug-Path", "Fastly-Debug-TTL", "Fastly-Debug-Digest",
   "X-Fastly-Request-ID", "X-Fastly-Trace", "Fastly-IO", "Fastly-Restarts"]

/-- detectFastlyWithConfidence (internal/http/types.go). -/
def detectFastlyWithConfidence (headers : Header) : CDNDetection :=
  let detection := cdnDefault "Fastly"
  match fastlyHighHeaders.find? (fun name => headers.get name != "") with
  | some name =>
    { detection with
        Detected := true, Confidence := "High",
        Evidence := detection.Evidence ++ [name ++ " header present"],
        PrimaryEvidence := name ++ ": " ++ headers.get name }
  | none =>
    let xServedBy := headers.get "X-Served-By"
    let detection :=
      if xServedBy != "" &&
          (goContains (goToLower xServedBy) "cache-" || goContains (goToLower xServedBy) "fastly") then
        { detection with
            Detected := true, Confidence := "Medium",
            Evidence := detection.Evidence ++ ["X-Served-By header with cache server pattern"],
            PrimaryEvidence := "X-Served-By: " ++ xServedBy }
      else detection
    let xTimer := headers.get "X-Timer"
    let detection :=
      if xTimer != "" && (goContains xTimer "S" && (goContains xTimer "." || goContains xTimer ",")) then
        { detection with
            Detected := true, Confidence := "Medium",
            Evidence := detection.Evidence ++ ["X-Timer header with Fastly format"],
            PrimaryEvidence :=
            if detection.PrimaryEvidence = "" then "X-Timer: " ++ xTimer
            else detection.PrimaryEvidence }
      else detection
    let via := headers.get "Via"
    let detection :=
      if via != "" then
        if goContains (goToLower via) "fastly" then
          { detection with
              Detected := true, Confidence := "Medium",
              Evidence := detection.Evidence ++ ["Via header contains \x27fastly\x27"],
              PrimaryEvidence :=
              if detection.PrimaryEvidence = "" then "Via: " ++ via
              else detection.PrimaryEvidence }
        else if goContains (goToLower via) "varnish" then
          { detection with
              Detected := true, Confidence := "Medium",
              Evidence := detection.Evidence ++ ["Via header contains \x27varnish\x27 (Fastly backend)"],
              PrimaryEvidence :=
              if detection.PrimaryEvidence = "" then "Via: " ++ via
              else detection.PrimaryEvidence }
        else detection
      else detection
    let xCache := headers.get "X-Cache"
    let detection :=
      if xCache != "" &&
          ((goContains (goToLower xCache) "hit" || goContains (goToLower xCache) "miss") &&
            hasFastlyIndicators headers) then
        { detection with
            Detected := true,
            Confidence := if detection.Confidence = "Low" then "Medium" else detection.Confidence,
            Evidence := detection.Evidence ++ ["X-Cache header with hit/miss pattern and Fastly indicators"],
            PrimaryEvidence :=
            if detection.PrimaryEvidence = "" then "X-Cache: " ++ xCache
            else detection.PrimaryEvidence }
      else detection
    detection

/-- The KeyCDN header names, in the textual order of the Go map literal. -/
def keyCDNHeaders : List String := ["X-Edge-Location", "X-Cache", "Server"]

/-- detectKeyCDNWithConfidence (internal/http/types.go). -/
def detectKeyCDNWithConfidence (headers : Header) : CDNDetection :=
  let detection := cdnDefault "KeyCDN"
  match keyCDNHeaders.find?
      (fun name => headers.get name != "" && goContains (goToLower (headers.get name)) "keycdn") with
  | some name =>
    { detection with
        Detected := true, Confidence := "High",
        Evidence := detection.Evidence ++ [name ++ " header contains \x27keycdn\x27"],
        PrimaryEvidence := name ++ ": " ++ headers.get name }
  | none => detection

/-- detectMaxCDNWithConfidence (internal/http/types.go). -/
def detectMaxCDNWithConfidence (headers : Header) : CDNDetection :=
  let detection := cdnDefault "MaxCDN"
  let xCache := headers.get "X-Cache"
  let detection :=
    if goContains (goToLower xCache) "maxcdn" then
      { detection with
          Detected := true, Confidence := "High",
          Evidence := detection.Evidence ++ ["X-Cache header contains \x27maxcdn\x27"],
          PrimaryEvidence := "X-Cache: " ++ xCache }
    else detection
  let server := headers.get "Server"
  let detection :=
    if goContains (goToLower server) "maxcdn" then
      { detection with
          Detected := true, Confidence := "High",
          Evidence := detection.Evidence ++ ["Server header contains \x27maxcdn\x27"],
          PrimaryEvidence :=
          if detection.PrimaryEvidence = "" then "Server: " ++ server
          else detection.PrimaryEvidence }
    else detection
  detection

/-- detectIncapsulaWithConfidence (internal/http/types.go). -/
def detectIncapsulaWithConfidence (headers : Header) : CDNDetection :=
  let detection := cdnDefault "Incapsula"
  let xIinfo := headers.get "X-Iinfo"
  let detection :=
    if xIinfo != "" then
      { detection with
          Detected := true, Confidence := "High",
          Evidence := detection.Evidence ++ ["X-Iinfo header present"],
          PrimaryEvidence := "X-Iinfo: " ++ xIinfo }
    else detection
  let xCDN := headers.get "X-CDN"
  let detection :=
    if goContains (goToLower xCDN) "incapsula" then
      { detection with
          Detected := true, Confidence := "High",
          Evidence := detection.Evidence ++ ["X-CDN header contains \x27incapsula\x27"],
          PrimaryEvidence :=
          if detection.PrimaryEvidence = "" then "X-CDN: " ++ xCDN
          else detection.PrimaryEvidence }
    else detection
  let cookies := headers.vals "Set-Cookie"
  let detection :=
    match cookies.find? (fun cookie => goContains (goToLower cookie) "visid_incap") with
    | some _ =>
      { detection with
          Detected := true, Confidence := "High",
          Evidence := detection.Evidence ++ ["Incapsula visitor ID cookie present"],
          PrimaryEvidence :=
          if detection.PrimaryEvidence = "" then "Incapsula cookie detected"
          else detection.PrimaryEvidence }
    | none => detection
  detection

/-- detectSucuriWithConfidence (internal/http/types.go): note all three
High-tier rules are evaluated in sequence, none returns early. -/
def detectSucuriWithConfidence (headers : Header) : CDNDetection :=
  let detection := cdnDefault "Sucuri"
  let sucuriID := headers.get "X-Sucuri-ID"
  let detection :=
    if sucuriID != "" then
      { detection with
          Detected := true, Confidence := "High",
          Evidence := detection.Evidence ++ ["X-Sucuri-ID header present"],
          PrimaryEvidence := "X-Sucuri-ID: " ++ sucuriID }
    else detection
  let sucuriCache := headers.get "X-Sucuri-Cache"
  let detection :=
    if sucuriCache != "" then
      { detection with
          Detected := true, Confidence := "High",
          Evidence := detection.Evidence ++ ["X-Sucuri-Cache header present"],
          PrimaryEvidence :=
          if detection.PrimaryEvidence = "" then "X-Sucuri-Cache: " ++ sucuriCache
          else detection.PrimaryEvidence }
    else detection
  let server := headers.get "Server"
  let detection :=
    if goContains (goToLower server) "sucuri" then
      { detection with
          Detected := true, Confidence := "High",
          Evidence := detection.Evidence ++ ["Server header contains \x27sucuri\x27"],
          PrimaryEvidence :=
          if detection.PrimaryEvidence = "" then "Server: " ++ server
          else detection.PrimaryEvidence }
    else detection
  detection

/-- DetectCDNWithConfidence (internal/http/types.go): the per-provider map,
modelled as the association list in insertion order. -/
def DetectCDNWithConfidence (headers : Header) : List (String × CDNDetection) :=
  [("cloudflare", detectCloudflareWithConfidence headers),
   ("cloudfront", detectCloudFrontWithConfidence headers),
   ("akamai", detectAkamaiWithConfidence headers),
   ("fastly", detectFastlyWithConfidence headers),
   ("keycdn", detectKeyCDNWithConfidence headers),
   ("maxcdn", detectMaxCDNWithConfidence headers),
   ("incapsula", detectIncapsulaWithConfidence headers),
   ("sucuri", detectSucuriWithConfidence headers)]

/-- Some Cloudflare rule condition holds (the disjunction of the guards of
detectCloudflareWithConfidence). -/
def cloudflareAnyRule (h : Header) : Bool :=
  h.get "CF-Ray" != "" || h.get "CF-Cache-Status" != "" ||
  h.get "CF-Connecting-IP" != "" || h.get "CF-IPCountry" != "" ||
  goContains (goToLower (h.get "Server")) "cloudflare"

/-- Some CloudFront rule condition holds. -/
def cloudfrontAnyRule (h : Header) : Bool :=
  h.get "X-Amz-Cf-Id" != "" ||
  goContains (goToLower (h.get "Via")) "cloudfront" ||
  goContains (goToLower (h.get "X-Cache")) "cloudfront" ||
  (h.vals "Set-Cookie").any (fun cookie => goContains cookie "AWSALB" || goContains cookie "AWSALBCORS")

/-- Some Akamai rule condition holds. -/
def akamaiAnyRule (h : Header) : Bool :=
  akamaiHighHeaders.any (fun p => h.get p.1 != "") ||
  h.get "True-Client-IP" != "" ||
  goContains (goToLower (h.get "Server")) "akamai"

/-- Some Fastly rule condition holds. -/
def fastlyAnyRule (h : Header) : Bool :=
  fastlyHighHeaders.any (fun name => h.get name != "") ||
  (h.get "X-Served-By" != "" &&
    (goContains (goToLower (h.get "X-Served-By")) "cache-" ||
     goContains (goToLower (h.get "X-Served-By")) "fastly")) ||
  (h.get "X-Timer" != "" && (goContains (h.get "X-Timer") "S" &&
    (goContains (h.get "X-Timer") "." || goContains (h.get "X-Timer") ","))) ||
  (h.get "Via" != "" && (goContains (goToLower (h.get "Via")) "fastly" ||
    goContains (goToLower (h.get "Via")) "varnish")) ||
  (h.get "X-Cache" != "" &&
    ((goContains (goToLower (h.get "X-Cache")) "hit" ||
      goContains (goToLower (h.get "X-Cache")) "miss") && hasFastlyIndicators h))

/-- Some KeyCDN rule condition holds. -/
def keycdnAnyRule (h : Header) : Bool :=
  keyCDNHeaders.any (fun name => h.get name != "" && goContains (goToLower (h.get name)) "keycdn")

/-- Some MaxCDN rule condition holds. -/
def maxcdnAnyRule (h : Header) : Bool :=
  goContains (goToLower (h.get "X-Cache")) "maxcdn" ||
  goContains (goToLower (h.get "Server")) "maxcdn"

/-- Some Incapsula rule condition holds. -/
def incapsulaAnyRule (h : Header) : Bool :=
  h.get "X-Iinfo" != "" ||
  goContains (goToLower (h.get "X-CDN")) "incapsula" ||
  (h.vals "Set-Cookie").any (fun cookie => goContains (goToLower cookie) "visid_incap")

/-- Some Sucuri rule condition holds. -/
def sucuriAnyRule (h : Header) : Bool :=
  h.get "X-Sucuri-ID" != "" || h.get "X-Sucuri-Cache" != "" ||
  goContains (goToLower (h.get "Server")) "sucuri"

/-- Whether any detection rule of the provider with the given key matches. -/
def cdnAnyRule (key : String) (h : Header) : Bool :=
  if key = "cloudflare" then cloudflareAnyRule h
  else if key = "cloudfront" then cloudfrontAnyRule h
  else if key = "akamai" then akamaiAnyRule h
  else if key = "fastly" then fastlyAnyRule h
  else if key = "keycdn" then keycdnAnyRule h
  else if key = "maxcdn" then maxcdnAnyRule h
  else if key = "incapsula" then incapsulaAnyRule h
  else if key = "sucuri" then sucuriAnyRule h
  else false

/-- A header map whose CF-Ray header is present. -/
def cfRayHeader : Header := Header.ofList [("CF-Ray", ["8abc-LHR"])]

/-- Response (internal/http/types.go), reduced to the field read by
FindStableHeaders; `ResponseHeaders` models the Go `http.Header` map as an
association list with pairwise-distinct keys (Go map iteration order is
arbitrary; none of the proved facts depends on the list order). -/
structure Response where
  ResponseHeaders : List (String × List String)
deriving DecidableEq, Repr

/-- stringSlicesEqual (internal/http/types.go): length check, then
element-wise comparison. -/
def stringSlicesEqual (a b : List String) : Bool :=
  if a.length ≠ b.length then false
  else (List.zip a b).all fun p => p.1 == p.2

/-- The inner loop of FindStableHeaders over the non-baseline responses:
the header's full ordered value sequence must exist and match in each
(early break on the first mismatch ≡ List.all). -/
def headerAllSame (rest : List Response) (name : String) (values : List String) : Bool :=
  rest.all fun ri =>
    match List.lookup name ri.ResponseHeaders with
    | some otherValues => stringSlicesEqual values otherValues
    | none => false

/-- The outer loop of FindStableHeaders over the baseline's headers,
returning the accumulated stable map and the differenceFound flag. -/
def stableFold (rest : List Response) : List (String × List String) → List (String × String) × Bool
  | [] => ([], false)
  | (name, values) :: tl =>
    let acc := stableFold rest tl
    if headerAllSame rest name values then
      ((name, String.intercalate ", " values) :: acc.1, acc.2)
    else (acc.1, true)

/-- FindStableHeaders (internal/http/types.go; findStableHeaders in
internal/http/analyzer.go is the identical algorithm): `none` models the
Go nil map returned for an empty sample list. -/
def FindStableHeaders (responses : List Response) : Option (List (String × String)) × Bool :=
  match responses with
  | [] => (none, false)
  | r0 :: rest =>
    let acc := stableFold rest r0.ResponseHeaders
    (some acc.1, acc.2)

/-- The baseline of the spec's three-sample example. -/
def sampleStableBase : Response :=
  ⟨[("Server", ["nginx"]), ("Date", ["Mon, 01 Jan 2024"])]⟩

/-- The other two samples of the spec's example: Server identical, Date
differing in sample 2. -/
def sampleStableRest : List Response :=
  [⟨[("Server", ["nginx"]), ("Date", ["Tue, 02 Jan 2024"])]⟩,
   ⟨[("Server", ["nginx"]), ("Date", ["Mon, 01 Jan 2024"])]⟩]

/-- ServerInfo (internal/http/types.go). -/
structure ServerInfo where
  ServerType : String
  Version : String
  Platform : String
  PoweredBy : String
  LoadBalancer : String
  Confidence : String
  Fingerprint : String
deriving DecidableEq, Repr

/-- The index of the first occurrence of `sub` in a character list
(strings.Index; none models -1). -/
def indexOfSub (sub : List Char) : List Char → Option Nat
  | [] => if sub.isEmpty then some 0 else none
  | c :: tl =>
    if sub.isPrefixOf (c :: tl) then some 0
    else (indexOfSub sub tl).map (· + 1)

/-- strings.Index on strings (char positions; the matched family tokens are
ASCII, so byte and rune indices coincide). -/
def stringIndex (s sub : String) : Option Nat := indexOfSub sub.toList s.toList

/-- The version character class of extractVersion: ASCII digits and dot. -/
def isVerChar (c : Char) : Bool :=
  (decide ('0' ≤ c) && decide (c ≤ '9')) || c == '.'

/-- The byte-scanning loop of extractVersion (internal/http/types.go): the
Go if/else-if chain, carrying the inVersion flag and accumulated
versionStr.  Note the chain falls through (continues) on any character that
matches no branch. -/
def extractLoop : List Char → Bool → String → String
  | [], _, acc => acc
  | c :: cs, inV, acc =>
    if isVerChar c then extractLoop cs true (acc.push c)
    else if inV then acc
    else if c == '/' || c == '-' then extractLoop cs inV acc
    else if c == ' ' && !inV then extractLoop cs inV acc
    else if inV then acc
    else extractLoop cs inV acc

/-- extractVersion (internal/http/types.go). -/
def extractVersion (server serverType : String) : String :=
  let serverLower := goToLower server
  match stringIndex serverLower (goToLower serverType) with
  | none => ""
  | some typeIndex =>
    let versionStart := typeIndex + serverType.length
    if versionStart ≥ server.length then ""
    else extractLoop (server.toList.drop versionStart) false ""

/-- The claim's version rule, following the spec's words: after the matched
family token only the separators /, - and space may be skipped, and the
version run of digits/dots must begin right after them. -/
def specExtractVersion (server serverType : String) : String :=
  let serverLower := goToLower server
  match stringIndex serverLower (goToLower serverType) with
  | none => ""
  | some typeIndex =>
    let rest := server.toList.drop (typeIndex + serverType.length)
    let afterSeps := rest.dropWhile (fun c => c == '/' || c == '-' || c == ' ')
    String.mk (afterSeps.takeWhile isVerChar)

/-- The rule the code implements: the first maximal digits/dots run at or
after the end of the matched family token, skipping every character until
the run begins. -/
def firstRunExtractVersion (server serverType : String) : String :=
  let serverLower := goToLower server
  match stringIndex serverLower (goToLower serverType) with
  | none => ""
  | some typeIndex =>
    let rest := server.toList.drop (typeIndex + serverType.length)
    String.mk ((rest.dropWhile (fun c => !isVerChar c)).takeWhile isVerChar)

/-- analyzeServerHeader (internal/http/types.go): the six family blocks in
source order. -/
def analyzeServerHeader (server : String) (info : ServerInfo) : ServerInfo :=
  let serverLower := goToLower server
  let info :=
    if goContains serverLower "nginx" then
      let info := { info with
          ServerType := "nginx", Platform := "Linux/Unix" }
      if extractVersion server "nginx" != "" then
        { info with
            Version := extractVersion server "nginx" }
      else info
    else info
  let info :=
    if goContains serverLower "apache" then
      let info := { info with
          ServerType := "Apache",
          Platform := if goContains serverLower "win" then "Windows" else "Linux/Unix" }
      if extractVersion server "apache" != "" then
        { info with
            Version := extractVersion server "apache" }
      else info
    else info
  let info :=
    if goContains serverLower "iis" || goContains serverLower "microsoft" then
      let info := { info with
          ServerType := "IIS", Platform := "Windows" }
      if extractVersion server "iis" != "" then
        { info with
            Version := extractVersion server "iis" }
      else info
    else info
  let info :=
    if goContains serverLower "litespeed" then
      let info := { info with
          ServerType := "LiteSpeed", Platform := "Linux/Unix" }
      if extractVersion server "litespeed" != "" then
        { info with
            Version := extractVersion server "litespeed" }
      else info
    else info
  let info :=
    if goContains serverLower "openresty" then
      { info with
          ServerType := "OpenResty", Platform := "Linux/Unix" }
    else info
  let info :=
    if goContains serverLower "caddy" then
      { info with
          ServerType := "Caddy", Platform := "Cross-platform" }
    else info
  info

/-- analyzePoweredByHeader (internal/http/types.go). -/
def analyzePoweredByHeader (poweredBy : String) (info : ServerInfo) : ServerInfo :=
  let poweredByLower := goToLower poweredBy
  let info :=
    if goContains poweredByLower "asp.net" then
      let info := { info with
          Platform := "Windows" }
      if info.ServerType = "Unknown" then
        { info with
            ServerType := "IIS" }
      else info
    else info
  let info :=
    if goContains poweredByLower "php" then
      if info.Platform = "Unknown" then
        { info with
            Platform := "Linux/Unix" }
      else info
    else info
  info

/-- detectLoadBalancer (internal/http/types.go). -/
def detectLoadBalancer (headers : Header) (info : ServerInfo) : ServerInfo :=
  let info :=
    if goContains (goToLower (headers.get "Server")) "haproxy" then
      { info with
          LoadBalancer := "HAProxy" }
    else info
  let info :=
    if headers.get "X-WA-Info" != "" then
      { info with
          LoadBalancer := "F5 BIG-IP" }
    else info
  let info :=
    if headers.get "X-Amzn-Trace-Id" != "" then
      { info with
          LoadBalancer := "AWS Application Load Balancer" }
    else info
  let info :=
    if headers.get "CF-Ray" != "" then
      { info with
          LoadBalancer := "Cloudflare" }
    else info
  info

/-- The fixed header subset of generateFingerprint, in source order. -/
def importantHeaders : List String :=
  ["Server", "X-Powered-By", "X-AspNet-Version", "X-Frame-Options",
   "X-Content-Type-Options", "Strict-Transport-Security", "Content-Security-Policy"]

/-- generateFingerprint (internal/http/types.go). -/
def generateFingerprint (headers : Header) : String :=
  importantHeaders.foldl
    (fun fingerprint header =>
      if headers.get header != "" then
        fingerprint ++ header ++ ":" ++ headers.get header ++ ";"
      else fingerprint) ""

/-- calculateConfidence (internal/http/types.go); the headers parameter is
unused, as in the source. -/
def calculateConfidence (info : ServerInfo) (headers : Header) : String :=
  let score : Nat :=
    (if info.ServerType ≠ "Unknown" then 30 else 0) +
    (if info.Version ≠ "Unknown" ∧ info.Version ≠ "" then 25 else 0) +
    (if info.Platform ≠ "Unknown" then 20 else 0) +
    (if info.PoweredBy ≠ "Unknown" ∧ info.PoweredBy ≠ "" then 15 else 0) +
    (if info.LoadBalancer ≠ "Unknown" then 10 else 0)
  if score ≥ 70 then "High"
  else if score ≥ 40 then "Medium"
  else "Low"

/-- The all-Unknown ServerInfo FingerprintServer starts from. -/
def fingerprintBase : ServerInfo :=
  { ServerType := "Unknown", Version := "Unknown", Platform := "Unknown",
    PoweredBy := "Unknown", LoadBalancer := "Unknown", Confidence := "Low",
    Fingerprint := "" }

/-- The serverInfo of FingerprintServer after the Server-header analysis
(internal/http/types.go, the first conditional of FingerprintServer). -/
def fingerprintAfterServer (headers : Header) : ServerInfo :=
  if headers.get "Server" != "" then
    analyzeServerHeader (headers.get "Server") fingerprintBase
  else fingerprintBase

/-- The serverInfo after the X-Powered-By step of FingerprintServer: when
the header is present, PoweredBy is recorded and analyzePoweredByHeader
runs. -/
def fingerprintAfterPoweredBy (headers : Header) : ServerInfo :=
  if headers.get "X-Powered-By" != "" then
    analyzePoweredByHeader (headers.get "X-Powered-By")
      { fingerprintAfterServer headers with
          PoweredBy := headers.get "X-Powered-By" }
  else fingerprintAfterServer headers

/-- FingerprintServer (internal/http/types.go) up to but excluding the final
confidence assignment: load-balancer detection, then the fingerprint
digest. -/
def fingerprintCore (headers : Header) : ServerInfo :=
  { detectLoadBalancer headers (fingerprintAfterPoweredBy headers) with
      Fingerprint := generateFingerprint headers }

/-- FingerprintServer (internal/http/types.go): the core pipeline followed
by the confidence assignment. -/
def FingerprintServer (headers : Header) : ServerInfo :=
  { fingerprintCore headers with
      Confidence := calculateConfidence (fingerprintCore headers) headers }

/-- The claim's additive score (spec wording: each field "known", i.e. not
"Unknown"). -/
def specFingerprintScore (info : ServerInfo) : Nat :=
  (if info.ServerType ≠ "Unknown" then 30 else 0) +
  (if info.Version ≠ "Unknown" then 25 else 0) +
  (if info.Platform ≠ "Unknown" then 20 else 0) +
  (if info.PoweredBy ≠ "Unknown" then 15 else 0) +
  (if info.LoadBalancer ≠ "Unknown" then 10 else 0)

/-- The claim's score-to-tier mapping: High iff ≥70, Medium iff ≥40 and
<70, else Low. -/
def specConfidenceTier (score : Nat) : String :=
  if score ≥ 70 then "High"
  else if score ≥ 40 then "Medium"
  else "Low"

/-- Reduction of an integer into the int64 range: the literals are 2^64
and 2^63 (Lean's % on Int is the Euclidean remainder, so `m` is always in
[0, 2^64)). -/
def wrap64 (n : Int) : Int :=
  let m := n % 18446744073709551616
  if m < 9223372036854775808 then m else m - 18446744073709551616

/-- Go int64 addition: two's-complement wrap-around on overflow. -/
def int64Add (a b : Int) : Int := wrap64 (a + b)

/-- assessConnectionQuality (internal/tcp/analyzer.go); the arguments are
the three phase latencies in milliseconds (connectTime.Milliseconds() and
the two int64 fields), and the additions are Go int64 additions, wrapping
on overflow. -/
def assessConnectionQuality (connectMs writeLatency readLatency : Int) : String :=
  let totalLatency := int64Add (int64Add connectMs writeLatency) readLatency
  if totalLatency < 50 then "Excellent"
  else if totalLatency < 150 then "Good"
  else if totalLatency < 300 then "Fair"
  else "Poor"

/-- The rank of a quality tier in the order Excellent < Good < Fair < Poor. -/
def qualityRank (tier : String) : Nat :=
  if tier = "Excellent" then 0
  else if tier = "Good" then 1
  else if tier = "Fair" then 2
  else 3

/-- C3: decoding the spec's 20-byte example yields exactly the stated field
values, and in general every field of a successfully decoded record equals
the stated big-endian byte slices of the input, the data offset is the top
nibble of byte 12 times 4, and each flag boolean is the corresponding
bitmask test of byte 13. -/
theorem analyzeTCP_decodes_fields :
    analyzeTCPResponse sampleTCPBuffer = GoOutcome.ok sampleTCPDecoded ∧
    ∀ (buf : GoSlice) (r : TCPResponse), analyzeTCPResponse buf = GoOutcome.ok r →
      r.SourcePort = beUint16 (buf.byte 0) (buf.byte 1) ∧
      r.DestinationPort = beUint16 (buf.byte 2) (buf.byte 3) ∧
      r.SequenceNumber = beUint32 (buf.byte 4) (buf.byte 5) (buf.byte 6) (buf.byte 7) ∧
      r.AckNumber = beUint32 (buf.byte 8) (buf.byte 9) (buf.byte 10) (buf.byte 11) ∧
      r.DataOffset = Nat.shiftRight (buf.byte 12) 4 * 4 ∧
      r.WindowSize = beUint16 (buf.byte 14) (buf.byte 15) ∧
      r.Checksum = beUint16 (buf.byte 16) (buf.byte 17) ∧
      r.UrgentPointer = beUint16 (buf.byte 18) (buf.byte 19) ∧
      r.SYNFlag = (Nat.land (buf.byte 13) 0x02 != 0) ∧
      r.ACKFlag = (Nat.land (buf.byte 13) 0x10 != 0) ∧
      r.FINFlag = (Nat.land (buf.byte 13) 0x01 != 0) ∧
      r.RSTFlag = (Nat.land (buf.byte 13) 0x04 != 0) ∧
      r.PSHFlag = (Nat.land (buf.byte 13) 0x08 != 0) ∧
      r.URGFlag = (Nat.land (buf.byte 13) 0x20 != 0) ∧
      r.ECEFlag = (Nat.land (buf.byte 13) 0x40 != 0) ∧
      r.CWRFlag = (Nat.land (buf.byte 13) 0x80 != 0) := by
  constructor
  · decide
  · intro buf r h
    simp only [analyzeTCPResponse] at h
    split at h
    · exact absurd h (by simp)
    · split at h
      · split at h
        · exact absurd h (by simp)
        · split at h
          · exact absurd h (by simp)
          · exact absurd h (by simp)
          · cases h
            simp [decodeTCPHeader]
      · cases h
        simp [decodeTCPHeader]

/-- C3 witness: the general field equalities evaluated on the spec's
example buffer. -/
theorem analyzeTCP_decodes_fields_witness :
    sampleTCPDecoded.SourcePort = beUint16 (sampleTCPBuffer.byte 0) (sampleTCPBuffer.byte 1) ∧
    sampleTCPDecoded.DestinationPort = beUint16 (sampleTCPBuffer.byte 2) (sampleTCPBuffer.byte 3) ∧
    sampleTCPDecoded.SequenceNumber = beUint32 (sampleTCPBuffer.byte 4) (sampleTCPBuffer.byte 5) (sampleTCPBuffer.byte 6) (sampleTCPBuffer.byte 7) ∧
    sampleTCPDecoded.AckNumber = beUint32 (sampleTCPBuffer.byte 8) (sampleTCPBuffer.byte 9) (sampleTCPBuffer.byte 10) (sampleTCPBuffer.byte 11) ∧
    sampleTCPDecoded.DataOffset = Nat.shiftRight (sampleTCPBuffer.byte 12) 4 * 4 ∧
    sampleTCPDecoded.WindowSize = beUint16 (sampleTCPBuffer.byte 14) (sampleTCPBuffer.byte 15) ∧
    sampleTCPDecoded.Checksum = beUint16 (sampleTCPBuffer.byte 16) (sampleTCPBuffer.byte 17) ∧
    sampleTCPDecoded.UrgentPointer = beUint16 (sampleTCPBuffer.byte 18) (sampleTCPBuffer.byte 19) ∧
    sampleTCPDecoded.SYNFlag = (Nat.land (sampleTCPBuffer.byte 13) 0x02 != 0) ∧
    sampleTCPDecoded.ACKFlag = (Nat.land (sampleTCPBuffer.byte 13) 0x10 != 0) ∧
    sampleTCPDecoded.FINFlag = (Nat.land (sampleTCPBuffer.byte 13) 0x01 != 0) ∧
    sampleTCPDecoded.RSTFlag = (Nat.land (sampleTCPBuffer.byte 13) 0x04 != 0) ∧
    sampleTCPDecoded.PSHFlag = (Nat.land (sampleTCPBuffer.byte 13) 0x08 != 0) ∧
    sampleTCPDecoded.URGFlag = (Nat.land (sampleTCPBuffer.byte 13) 0x20 != 0) ∧
    sampleTCPDecoded.ECEFlag = (Nat.land (sampleTCPBuffer.byte 13) 0x40 != 0) ∧
    sampleTCPDecoded.CWRFlag = (Nat.land (sampleTCPBuffer.byte 13) 0x80 != 0) :=
  analyzeTCP_decodes_fields.2 sampleTCPBuffer sampleTCPDecoded (by decide)

/-- C4: every buffer shorter than 20 bytes makes analyzeTCPResponse return
the explicit length error and no decoded record. -/
theorem analyzeTCP_short_buffer_errors (buf : GoSlice) (h : buf.len < 20) :
    analyzeTCPResponse buf = GoOutcome.err "Invalid TCP packet length\n" := by
  unfold analyzeTCPResponse
  simp [h]

/-- C4 witness: the empty buffer. -/
theorem analyzeTCP_short_buffer_errors_witness :
    (GoSlice.mk [] []).len < 20 ∧
    analyzeTCPResponse (GoSlice.mk [] []) = GoOutcome.err "Invalid TCP packet length\n" :=
  ⟨by decide, analyzeTCP_short_buffer_errors (GoSlice.mk [] []) (by decide)⟩

/-- C5: option parsing is not total.  A SACK option (Kind 5) whose declared
length byte is 0 or 1 makes the Go slice expression
`options[i+2 : i+sackLen]` panic (low bound above high bound), and an
unknown-Kind option with declared length byte 0 advances the loop index by
zero and loops forever; at the whole-function level the panic propagates
out of analyzeTCPResponse and the loop makes it diverge. -/
theorem parseTCPOptions_degenerate_length_fails :
    parseTCPOptions [5, 0] = ParseOutcome.panicked ∧
    parseTCPOptions [5, 1, 0] = ParseOutcome.panicked ∧
    (∀ fuel : Nat, runOpts [254, 0] fuel 0 = ParseOutcome.diverged) ∧
    analyzeTCPResponse sackPanicTCPBuffer = GoOutcome.goPanic "slice bounds out of range" ∧
    analyzeTCPResponse loopTCPBuffer = GoOutcome.diverge := by
  refine ⟨by decide, by decide, ?_, by decide, by decide⟩
  have hstep : optStep [254, 0] 0 = OptStep.cont 0 := by decide
  intro fuel
  induction fuel with
  | zero => rfl
  | succ n ih => simp [runOpts, hstep, ih]

/-- C10 counterexample: a 20-byte buffer with no spare capacity and
data-offset nibble 15 (DataOffset = 60).  The slice `buf[20:60]` is bounds
checked against the capacity 20, so analyzeTCPResponse panics instead of
completing with a decoded record. -/
theorem analyzeTCP_tight_buffer_slice_panics :
    20 ≤ tightTCPBuffer.len ∧
    (decodeTCPHeader tightTCPBuffer).DataOffset = 60 ∧
    analyzeTCPResponse tightTCPBuffer = GoOutcome.goPanic "slice bounds out of range" := by
  decide

/-- C10 amended: for every buffer of length ≥ 20, when DataOffset ≤ 20 the
call returns the decoded record; when DataOffset > 20 the options slice is
bounds-checked against the buffer's capacity (not its length), panicking
iff DataOffset exceeds the capacity; within capacity the slice (possibly
reaching past the length) is attached to the record, which is returned
unless option parsing itself panics or diverges on those bytes. -/
theorem analyzeTCP_capacity_bounds (buf : GoSlice) (h20 : 20 ≤ buf.len) :
    ((decodeTCPHeader buf).DataOffset ≤ 20 →
      analyzeTCPResponse buf = GoOutcome.ok (decodeTCPHeader buf)) ∧
    (20 < (decodeTCPHeader buf).DataOffset →
      (buf.cap < (decodeTCPHeader buf).DataOffset →
        analyzeTCPResponse buf = GoOutcome.goPanic "slice bounds out of range") ∧
      ((decodeTCPHeader buf).DataOffset ≤ buf.cap →
        buf.sliceRange 20 (decodeTCPHeader buf).DataOffset =
          some ((buf.full.drop 20).take ((decodeTCPHeader buf).DataOffset - 20)) ∧
        analyzeTCPResponse buf =
          (match parseTCPOptions ((buf.full.drop 20).take ((decodeTCPHeader buf).DataOffset - 20)) with
           | ParseOutcome.panicked => GoOutcome.goPanic "slice bounds out of range"
           | ParseOutcome.diverged => GoOutcome.diverge
           | _ => GoOutcome.ok { decodeTCPHeader buf with
               TCPOptions := (buf.full.drop 20).take ((decodeTCPHeader buf).DataOffset - 20) }))) := by
  have hnot : ¬ buf.len < 20 := Nat.not_lt.mpr h20
  constructor
  · intro hle
    simp only [analyzeTCPResponse, if_neg hnot]
    rw [if_neg (Nat.not_lt.mpr hle)]
  · intro hgt
    constructor
    · intro hcap
      have hslice : buf.sliceRange 20 (decodeTCPHeader buf).DataOffset = none := by
        unfold GoSlice.sliceRange
        rw [if_neg]
        intro hc
        exact absurd hc.2 (Nat.not_le.mpr hcap)
      simp only [analyzeTCPResponse, if_neg hnot]
      rw [if_pos hgt, hslice]
    · intro hcap
      have hslice : buf.sliceRange 20 (decodeTCPHeader buf).DataOffset =
          some ((buf.full.drop 20).take ((decodeTCPHeader buf).DataOffset - 20)) := by
        unfold GoSlice.sliceRange
        rw [if_pos ⟨Nat.le_of_lt hgt, hcap⟩]
      refine ⟨hslice, ?_⟩
      simp only [analyzeTCPResponse, if_neg hnot]
      rw [if_pos hgt, hslice]

/-- C10 amended witness: a 24-byte buffer with DataOffset 24 and four NOP
options — in capacity bounds, so the decode completes. -/
theorem analyzeTCP_capacity_bounds_witness :
    20 ≤ nopTCPBuffer.len ∧
    (((decodeTCPHeader nopTCPBuffer).DataOffset ≤ 20 →
      analyzeTCPResponse nopTCPBuffer = GoOutcome.ok (decodeTCPHeader nopTCPBuffer)) ∧
    (20 < (decodeTCPHeader nopTCPBuffer).DataOffset →
      (nopTCPBuffer.cap < (decodeTCPHeader nopTCPBuffer).DataOffset →
        analyzeTCPResponse nopTCPBuffer = GoOutcome.goPanic "slice bounds out of range") ∧
      ((decodeTCPHeader nopTCPBuffer).DataOffset ≤ nopTCPBuffer.cap →
        nopTCPBuffer.sliceRange 20 (decodeTCPHeader nopTCPBuffer).DataOffset =
          some ((nopTCPBuffer.full.drop 20).take ((decodeTCPHeader nopTCPBuffer).DataOffset - 20)) ∧
        analyzeTCPResponse nopTCPBuffer =
          (match parseTCPOptions ((nopTCPBuffer.full.drop 20).take ((decodeTCPHeader nopTCPBuffer).DataOffset - 20)) with
           | ParseOutcome.panicked => GoOutcome.goPanic "slice bounds out of range"
           | ParseOutcome.diverged => GoOutcome.diverge
           | _ => GoOutcome.ok { decodeTCPHeader nopTCPBuffer with
               TCPOptions := (nopTCPBuffer.full.drop 20).take ((decodeTCPHeader nopTCPBuffer).DataOffset - 20) })))) :=
  ⟨by decide, analyzeTCP_capacity_bounds nopTCPBuffer (by decide)⟩

theorem detectCloudflare_detected_evidence (h : Header) :
    (detectCloudflareWithConfidence h).Detected = true →
    (detectCloudflareWithConfidence h).Evidence ≠ [] := by
  simp only [detectCloudflareWithConfidence, cdnDefault]
  repeat' split
  all_goals simp

theorem detectCloudflare_no_rule (h : Header) (hno : cloudflareAnyRule h = false) :
    detectCloudflareWithConfidence h = cdnDefault "Cloudflare" := by
  simp only [cloudflareAnyRule, Bool.or_eq_false_iff, bne_eq_false_iff_eq] at hno
  obtain ⟨⟨⟨⟨h1, h2⟩, h3⟩, h4⟩, h5⟩ := hno
  simp [detectCloudflareWithConfidence, h1, h2, h3, h4, h5]

theorem detectCloudFront_detected_evidence (h : Header) :
    (detectCloudFrontWithConfidence h).Detected = true →
    (detectCloudFrontWithConfidence h).Evidence ≠ [] := by
  simp only [detectCloudFrontWithConfidence, cdnDefault]
  repeat' split
  all_goals simp

theorem detectCloudFront_no_rule (h : Header) (hno : cloudfrontAnyRule h = false) :
    detectCloudFrontWithConfidence h = cdnDefault "CloudFront" := by
  simp only [cloudfrontAnyRule, Bool.or_eq_false_iff, bne_eq_false_iff_eq,
    List.any_eq_false] at hno
  obtain ⟨⟨⟨h1, h2⟩, h3⟩, h4⟩ := hno
  have hfind : (h.vals "Set-Cookie").find?
      (fun cookie => goContains cookie "AWSALB" || goContains cookie "AWSALBCORS") = none := by
    rw [List.find?_eq_none]
    intro c hc
    simpa using h4 c hc
  simp [detectCloudFrontWithConfidence, h1, h2, h3, hfind]

theorem detectAkamai_detected_evidence (h : Header) :
    (detectAkamaiWithConfidence h).Detected = true →
    (detectAkamaiWithConfidence h).Evidence ≠ [] := by
  simp only [detectAkamaiWithConfidence, cdnDefault]
  repeat' split
  all_goals simp

theorem detectAkamai_no_rule (h : Header) (hno : akamaiAnyRule h = false) :
    detectAkamaiWithConfidence h = cdnDefault "Akamai" := by
  simp only [akamaiAnyRule, Bool.or_eq_false_iff, bne_eq_false_iff_eq,
    List.any_eq_false] at hno
  obtain ⟨⟨h1, h2⟩, h3⟩ := hno
  have hfind : akamaiHighHeaders.find? (fun p => h.get p.1 != "") = none := by
    rw [List.find?_eq_none]
    intro p hp
    simpa using h1 p hp
  simp [detectAkamaiWithConfidence, hfind, h2, h3]

theorem detectStep_pres {c : Prop} [Decidable c] {d X : CDNDetection}
    (hX : X.Evidence ≠ []) (hd : d.Detected = true → d.Evidence ≠ []) :
    (if c then X else d).Detected = true → (if c then X else d).Evidence ≠ [] := by
  split
  · exact fun _ => hX
  · exact hd

theorem detectStep_pres3 {c1 c2 c3 : Prop} [Decidable c1] [Decidable c2] [Decidable c3]
    {d X1 X2 : CDNDetection} (h1 : X1.Evidence ≠ []) (h2 : X2.Evidence ≠ [])
    (hd : d.Detected = true → d.Evidence ≠ []) :
    (if c1 then (if c2 then X1 else if c3 then X2 else d) else d).Detected = true →
    (if c1 then (if c2 then X1 else if c3 then X2 else d) else d).Evidence ≠ [] := by
  split
  · split
    · exact fun _ => h1
    · split
      · exact fun _ => h2
      · exact hd
  · exact hd

theorem detectFastly_detected_evidence (h : Header) :
    (detectFastlyWithConfidence h).Detected = true →
    (detectFastlyWithConfidence h).Evidence ≠ [] := by
  simp only [detectFastlyWithConfidence, cdnDefault]
  split
  · simp
  · refine detectStep_pres (by simp) ?_
    refine detectStep_pres3 (by simp) (by simp) ?_
    refine detectStep_pres (by simp) ?_
    refine detectStep_pres (by simp) ?_
    simp

theorem detectFastly_no_rule (h : Header) (hno : fastlyAnyRule h = false) :
    detectFastlyWithConfidence h = cdnDefault "Fastly" := by
  simp only [fastlyAnyRule, Bool.or_eq_false_iff, List.any_eq_false] at hno
  obtain ⟨⟨⟨⟨h1, h2⟩, h3⟩, h4⟩, h5⟩ := hno
  have hfind : fastlyHighHeaders.find? (fun name => h.get name != "") = none := by
    rw [List.find?_eq_none]
    intro name hn
    simpa using h1 name hn
  rcases Bool.and_eq_false_iff.mp h4 with hv | hfv
  · simp [detectFastlyWithConfidence, hfind, h2, h3, h5, hv]
  · obtain ⟨hvf, hvv⟩ := Bool.or_eq_false_iff.mp hfv
    simp [detectFastlyWithConfidence, hfind, h2, h3, h5, hvf, hvv]

theorem detectKeyCDN_detected_evidence (h : Header) :
    (detectKeyCDNWithConfidence h).Detected = true →
    (detectKeyCDNWithConfidence h).Evidence ≠ [] := by
  simp only [detectKeyCDNWithConfidence, cdnDefault]
  repeat' split
  all_goals simp

theorem detectKeyCDN_no_rule (h : Header) (hno : keycdnAnyRule h = false) :
    detectKeyCDNWithConfidence h = cdnDefault "KeyCDN" := by
  simp only [keycdnAnyRule, List.any_eq_false] at hno
  have hfind : keyCDNHeaders.find?
      (fun name => h.get name != "" && goContains (goToLower (h.get name)) "keycdn") = none := by
    rw [List.find?_eq_none]
    intro name hn
    simpa using hno name hn
  simp [detectKeyCDNWithConfidence, hfind]

theorem detectMaxCDN_detected_evidence (h : Header) :
    (detectMaxCDNWithConfidence h).Detected = true →
    (detectMaxCDNWithConfidence h).Evidence ≠ [] := by
  simp only [detectMaxCDNWithConfidence, cdnDefault]
  repeat' split
  all_goals simp

theorem detectMaxCDN_no_rule (h : Header) (hno : maxcdnAnyRule h = false) :
    detectMaxCDNWithConfidence h = cdnDefault "MaxCDN" := by
  simp only [maxcdnAnyRule, Bool.or_eq_false_iff] at hno
  obtain ⟨h1, h2⟩ := hno
  simp [detectMaxCDNWithConfidence, h1, h2]

theorem detectIncapsula_detected_evidence (h : Header) :
    (detectIncapsulaWithConfidence h).Detected = true →
    (detectIncapsulaWithConfidence h).Evidence ≠ [] := by
  simp only [detectIncapsulaWithConfidence, cdnDefault]
  repeat' split
  all_goals simp

theorem detectIncapsula_no_rule (h : Header) (hno : incapsulaAnyRule h = false) :
    detectIncapsulaWithConfidence h = cdnDefault "Incapsula" := by
  simp only [incapsulaAnyRule, Bool.or_eq_false_iff, bne_eq_false_iff_eq,
    List.any_eq_false] at hno
  obtain ⟨⟨h1, h2⟩, h3⟩ := hno
  have hfind : (h.vals "Set-Cookie").find?
      (fun cookie => goContains (goToLower cookie) "visid_incap") = none := by
    rw [List.find?_eq_none]
    intro c hc
    simpa using h3 c hc
  simp [detectIncapsulaWithConfidence, h1, h2, hfind]

theorem detectSucuri_detected_evidence (h : Header) :
    (detectSucuriWithConfidence h).Detected = true →
    (detectSucuriWithConfidence h).Evidence ≠ [] := by
  simp only [detectSucuriWithConfidence, cdnDefault]
  repeat' split
  all_goals simp

theorem detectSucuri_no_rule (h : Header) (hno : sucuriAnyRule h = false) :
    detectSucuriWithConfidence h = cdnDefault "Sucuri" := by
  simp only [sucuriAnyRule, Bool.or_eq_false_iff, bne_eq_false_iff_eq] at hno
  obtain ⟨⟨h1, h2⟩, h3⟩ := hno
  simp [detectSucuriWithConfidence, h1, h2, h3]

/-- C1: every Detection in the map returned by DetectCDNWithConfidence has
non-empty Evidence whenever Detected is true, and a provider none of whose
rules matches gets exactly the initial Detected=false / Confidence="Low" /
Evidence=[] value. -/
theorem cdn_detection_invariant (h : Header) (p : String) (d : CDNDetection)
    (hmem : (p, d) ∈ DetectCDNWithConfidence h) :
    (d.Detected = true → d.Evidence ≠ []) ∧
    (cdnAnyRule p h = false → d = cdnDefault d.Provider) := by
  simp only [DetectCDNWithConfidence, List.mem_cons, List.not_mem_nil, or_false,
    Prod.mk.injEq] at hmem
  rcases hmem with hpd | hpd | hpd | hpd | hpd | hpd | hpd | hpd <;>
    obtain ⟨rfl, rfl⟩ := hpd
  · refine ⟨detectCloudflare_detected_evidence h, fun hno => ?_⟩
    rw [detectCloudflare_no_rule h (by simpa [cdnAnyRule] using hno)]
    simp [cdnDefault]
  · refine ⟨detectCloudFront_detected_evidence h, fun hno => ?_⟩
    rw [detectCloudFront_no_rule h (by simpa [cdnAnyRule] using hno)]
    simp [cdnDefault]
  · refine ⟨detectAkamai_detected_evidence h, fun hno => ?_⟩
    rw [detectAkamai_no_rule h (by simpa [cdnAnyRule] using hno)]
    simp [cdnDefault]
  · refine ⟨detectFastly_detected_evidence h, fun hno => ?_⟩
    rw [detectFastly_no_rule h (by simpa [cdnAnyRule] using hno)]
    simp [cdnDefault]
  · refine ⟨detectKeyCDN_detected_evidence h, fun hno => ?_⟩
    rw [detectKeyCDN_no_rule h (by simpa [cdnAnyRule] using hno)]
    simp [cdnDefault]
  · refine ⟨detectMaxCDN_detected_evidence h, fun hno => ?_⟩
    rw [detectMaxCDN_no_rule h (by simpa [cdnAnyRule] using hno)]
    simp [cdnDefault]
  · refine ⟨detectIncapsula_detected_evidence h, fun hno => ?_⟩
    rw [detectIncapsula_no_rule h (by simpa [cdnAnyRule] using hno)]
    simp [cdnDefault]
  · refine ⟨detectSucuri_detected_evidence h, fun hno => ?_⟩
    rw [detectSucuri_no_rule h (by simpa [cdnAnyRule] using hno)]
    simp [cdnDefault]

/-- C1 witness: the invariant evaluated for the cloudflare entry of a header
map carrying CF-Ray. -/
theorem cdn_detection_invariant_witness :
    (("cloudflare", detectCloudflareWithConfidence cfRayHeader) ∈
      DetectCDNWithConfidence cfRayHeader) ∧
    (((detectCloudflareWithConfidence cfRayHeader).Detected = true →
        (detectCloudflareWithConfidence cfRayHeader).Evidence ≠ []) ∧
      (cdnAnyRule "cloudflare" cfRayHeader = false →
        detectCloudflareWithConfidence cfRayHeader =
          cdnDefault (detectCloudflareWithConfidence cfRayHeader).Provider)) :=
  ⟨by simp [DetectCDNWithConfidence],
   cdn_detection_invariant cfRayHeader "cloudflare"
     (detectCloudflareWithConfidence cfRayHeader) (by simp [DetectCDNWithConfidence])⟩

theorem int64Add_of_nonneg (a b : Int) (ha : 0 ≤ a) (hb : 0 ≤ b)
    (h : a + b ≤ 9223372036854775807) : int64Add a b = a + b := by
  simp only [int64Add, wrap64]
  rw [Int.emod_eq_of_lt (by omega) (by omega), if_pos (by omega)]

/-- C9 counterexample: with write and read latencies 2^61 ms each, raising
the connect latency from 0 to the maximal int64 value 2^63-1 wraps the
int64 total negative, dropping the tier from Poor to Excellent — the tier
is not monotone over all non-negative int64 latencies. -/
theorem quality_tier_wrap_not_monotone :
    assessConnectionQuality 0 2305843009213693952 2305843009213693952 = "Poor" ∧
    assessConnectionQuality 9223372036854775807 2305843009213693952 2305843009213693952 =
      "Excellent" ∧
    (0:Int) ≤ 0 ∧ (0:Int) ≤ 2305843009213693952 ∧
    (0:Int) ≤ 9223372036854775807 ∧
    qualityRank (assessConnectionQuality 9223372036854775807
        2305843009213693952 2305843009213693952) <
      qualityRank (assessConnectionQuality 0
        2305843009213693952 2305843009213693952) := by
  refine ⟨by decide, by decide, by decide, by decide, by decide, by decide⟩

/-- C9 amended: for non-negative latencies whose increased total still fits
in int64 (at most 2^63-1, so no addition wraps), increasing any single
latency while holding the other two fixed never decreases the rank of the
quality tier (Excellent < Good < Fair < Poor). -/
theorem quality_tier_monotone :
    (∀ c c' w r : Int, 0 ≤ c → 0 ≤ w → 0 ≤ r → c ≤ c' →
      c' + w + r ≤ 9223372036854775807 →
      qualityRank (assessConnectionQuality c w r) ≤
        qualityRank (assessConnectionQuality c' w r)) ∧
    (∀ c w w' r : Int, 0 ≤ c → 0 ≤ w → 0 ≤ r → w ≤ w' →
      c + w' + r ≤ 9223372036854775807 →
      qualityRank (assessConnectionQuality c w r) ≤
        qualityRank (assessConnectionQuality c w' r)) ∧
    (∀ c w r r' : Int, 0 ≤ c → 0 ≤ w → 0 ≤ r → r ≤ r' →
      c + w + r' ≤ 9223372036854775807 →
      qualityRank (assessConnectionQuality c w r) ≤
        qualityRank (assessConnectionQuality c w r')) := by
  suffices key : ∀ c w r c' w' r' : Int, 0 ≤ c → 0 ≤ w → 0 ≤ r →
      0 ≤ c' → 0 ≤ w' → 0 ≤ r' → c + w + r ≤ c' + w' + r' →
      c' + w' + r' ≤ 9223372036854775807 →
      qualityRank (assessConnectionQuality c w r) ≤
        qualityRank (assessConnectionQuality c' w' r') by
    exact ⟨fun c c' w r hc hw hr hle hfit =>
        key c w r c' w r hc hw hr (by omega) hw hr (by omega) hfit,
      fun c w w' r hc hw hr hle hfit =>
        key c w r c w' r hc hw hr hc (by omega) hr (by omega) hfit,
      fun c w r r' hc hw hr hle hfit =>
        key c w r c w r' hc hw hr hc hw (by omega) (by omega) hfit⟩
  intro c w r c' w' r' hc hw hr hc' hw' hr' hle hfit
  have e1 : int64Add c w = c + w := int64Add_of_nonneg c w hc hw (by omega)
  have e2 : int64Add (c + w) r = c + w + r :=
    int64Add_of_nonneg (c + w) r (by omega) hr (by omega)
  have e3 : int64Add c' w' = c' + w' := int64Add_of_nonneg c' w' hc' hw' (by omega)
  have e4 : int64Add (c' + w') r' = c' + w' + r' :=
    int64Add_of_nonneg (c' + w') r' (by omega) hr' (by omega)
  simp only [assessConnectionQuality, e1, e2, e3, e4]
  split_ifs <;> first | decide | (exfalso; omega)

/-- C9 amended witness: connect latency raised from 10 ms to 100 ms with
write and read held at 5 ms, totals far below the int64 bound. -/
theorem quality_tier_monotone_witness :
    (0:Int) ≤ 10 ∧ (0:Int) ≤ 5 ∧ (10:Int) ≤ 100 ∧
    (100 + 5 + 5 : Int) ≤ 9223372036854775807 ∧
    qualityRank (assessConnectionQuality 10 5 5) ≤
      qualityRank (assessConnectionQuality 100 5 5) :=
  ⟨by decide, by decide, by decide, by decide,
   quality_tier_monotone.1 10 100 5 5 (by decide) (by decide) (by decide)
     (by decide) (by decide)⟩

theorem stringSlicesEqual_iff (a : List String) : ∀ b, stringSlicesEqual a b = true ↔ a = b := by
  induction a with
  | nil => intro b; cases b <;> simp [stringSlicesEqual]
  | cons x xs ih =>
    intro b
    cases b with
    | nil => simp [stringSlicesEqual]
    | cons y ys =>
      by_cases hl : xs.length = ys.length
      · have h2 := ih ys
        simp [stringSlicesEqual, hl] at h2 ⊢
        tauto
      · simp [stringSlicesEqual, hl]
        exact fun _ hc => hl (by rw [hc])

theorem headerAllSame_iff (rest : List Response) (name : String) (vs : List String) :
    headerAllSame rest name vs = true ↔
      ∀ r ∈ rest, List.lookup name r.ResponseHeaders = some vs := by
  unfold headerAllSame
  rw [List.all_eq_true]
  constructor
  · intro hall r hr
    have hthis := hall r hr
    cases hlk : List.lookup name r.ResponseHeaders with
    | none => rw [hlk] at hthis; simp at hthis
    | some ov =>
      rw [hlk] at hthis
      simp only [] at hthis
      have := (stringSlicesEqual_iff vs ov).mp hthis
      rw [this]
  · intro hall r hr
    rw [hall r hr]
    simp [stringSlicesEqual_iff]

theorem lookup_none_of_keys_not_mem (name : String) (l : List (String × List String))
    (h : name ∉ l.map Prod.fst) : List.lookup name l = none := by
  induction l with
  | nil => rfl
  | cons p tl ih =>
    obtain ⟨k, v⟩ := p
    simp only [List.map_cons, List.mem_cons] at h
    push_neg at h
    obtain ⟨h1, h2⟩ := h
    have hb : (name == k) = false := beq_eq_false_iff_ne.mpr h1
    simp [List.lookup, hb, ih h2]

theorem stableFold_diff (rest : List Response) (l : List (String × List String)) :
    (stableFold rest l).2 = true ↔ ∃ p ∈ l, headerAllSame rest p.1 p.2 = false := by
  induction l with
  | nil => simp [stableFold]
  | cons p tl ih =>
    obtain ⟨name, values⟩ := p
    by_cases hall : headerAllSame rest name values = true
    · simp [stableFold, hall, ih]
    · have hf : headerAllSame rest name values = false := by
        cases hx : headerAllSame rest name values with
        | true => exact absurd hx hall
        | false => rfl
      simp [stableFold, hf]

theorem stableFold_mem (rest : List Response) (l : List (String × List String))
    (hnd : (l.map Prod.fst).Nodup) (name : String) (v : String) :
    (name, v) ∈ (stableFold rest l).1 ↔
      (∃ vs, List.lookup name l = some vs ∧ headerAllSame rest name vs = true ∧
        v = String.intercalate ", " vs) := by
  induction l with
  | nil => simp [stableFold]
  | cons p tl ih =>
    obtain ⟨k, vs0⟩ := p
    simp only [List.map_cons, List.nodup_cons] at hnd
    obtain ⟨hk, hnd'⟩ := hnd
    have ihx := ih hnd'
    by_cases hname : name = k
    · subst hname
      have hlknone : List.lookup name tl = none := lookup_none_of_keys_not_mem name tl hk
      by_cases hall : headerAllSame rest name vs0 = true
      · simp only [stableFold, hall, if_true, List.mem_cons, Prod.mk.injEq, true_and,
          List.lookup, beq_self_eq_true] at ihx ⊢
        constructor
        · rintro (rfl | hmem)
          · exact ⟨vs0, rfl, hall, rfl⟩
          · obtain ⟨vs, hlk, _, _⟩ := ihx.mp hmem
            rw [hlknone] at hlk
            cases hlk
        · rintro ⟨vs, hvs, _, hv⟩
          cases hvs
          exact Or.inl hv
      · have hf : headerAllSame rest name vs0 = false := by
          cases hx : headerAllSame rest name vs0 with
          | true => exact absurd hx hall
          | false => rfl
        simp only [stableFold, hf, if_false, Bool.false_eq_true, List.lookup,
          beq_self_eq_true] at ihx ⊢
        rw [ihx, hlknone]
        constructor
        · rintro ⟨vs, hlk, _⟩
          cases hlk
        · rintro ⟨vs, hvs, hall2, _⟩
          cases hvs
          exact absurd hall2 hall
    · have hb : (name == k) = false := beq_eq_false_iff_ne.mpr hname
      by_cases hall : headerAllSame rest k vs0 = true
      · simp only [stableFold, hall, if_true, List.mem_cons, Prod.mk.injEq,
          List.lookup, hb] at ihx ⊢
        rw [ihx]
        constructor
        · rintro (⟨h1, _⟩ | h)
          · exact absurd h1 hname
          · exact h
        · exact fun h => Or.inr h
      · have hf : headerAllSame rest k vs0 = false := by
          cases hx : headerAllSame rest k vs0 with
          | true => exact absurd hx hall
          | false => rfl
        simp only [stableFold, hf, if_false, Bool.false_eq_true, List.lookup, hb] at ihx ⊢
        exact ihx

/-- C6: for a non-empty sample list, a header name (with a recorded value)
is in the stable map iff the name is in the baseline sample and its full
ordered value sequence reappears under that name in every other sample,
the recorded value being the ", "-joined sequence; names absent from the
baseline never enter the stable map; anyDifference is true iff some
baseline header fails the comparison; and the empty sample list yields
(nil, false). -/
theorem findStableHeaders_characterization (r0 : Response) (rest : List Response)
    (hnd : (r0.ResponseHeaders.map Prod.fst).Nodup) :
    FindStableHeaders [] = (none, false) ∧
    ∃ stable diff, FindStableHeaders (r0 :: rest) = (some stable, diff) ∧
      (∀ name v, (name, v) ∈ stable ↔
        (∃ vs, List.lookup name r0.ResponseHeaders = some vs ∧
          (∀ r ∈ rest, List.lookup name r.ResponseHeaders = some vs) ∧
          v = String.intercalate ", " vs)) ∧
      (∀ name, List.lookup name r0.ResponseHeaders = none → ∀ v, (name, v) ∉ stable) ∧
      (diff = true ↔ ∃ p ∈ r0.ResponseHeaders,
        ¬ ∀ r ∈ rest, List.lookup p.1 r.ResponseHeaders = some p.2) := by
  refine ⟨rfl, (stableFold rest r0.ResponseHeaders).1,
    (stableFold rest r0.ResponseHeaders).2, rfl, ?_, ?_, ?_⟩
  · intro name v
    rw [stableFold_mem rest _ hnd name v]
    exact exists_congr fun vs => and_congr_right fun _ =>
      and_congr_left fun _ => headerAllSame_iff rest name vs
  · intro name hnone v hv
    obtain ⟨vs, hlk, _, _⟩ := (stableFold_mem rest _ hnd name v).mp hv
    rw [hnone] at hlk
    cases hlk
  · rw [stableFold_diff]
    refine exists_congr fun p => and_congr_right fun _ => ?_
    rw [Bool.eq_false_iff, ne_eq, headerAllSame_iff]

/-- C6 witness: the spec's three-sample example (Server identical in all
three, Date differing in sample 2), whose baseline keys are distinct. -/
theorem findStableHeaders_characterization_witness :
    (sampleStableBase.ResponseHeaders.map Prod.fst).Nodup ∧
    (FindStableHeaders [] = (none, false) ∧
    ∃ stable diff, FindStableHeaders (sampleStableBase :: sampleStableRest) = (some stable, diff) ∧
      (∀ name v, (name, v) ∈ stable ↔
        (∃ vs, List.lookup name sampleStableBase.ResponseHeaders = some vs ∧
          (∀ r ∈ sampleStableRest, List.lookup name r.ResponseHeaders = some vs) ∧
          v = String.intercalate ", " vs)) ∧
      (∀ name, List.lookup name sampleStableBase.ResponseHeaders = none →
        ∀ v, (name, v) ∉ stable) ∧
      (diff = true ↔ ∃ p ∈ sampleStableBase.ResponseHeaders,
        ¬ ∀ r ∈ sampleStableRest, List.lookup p.1 r.ResponseHeaders = some p.2)) :=
  ⟨by decide, findStableHeaders_characterization sampleStableBase sampleStableRest (by decide)⟩

theorem verStep_id {c : Prop} [Decidable c] {d X : ServerInfo} (b : String)
    (h : X.Version = d.Version) (hd : d.Version = b ∨ d.Version ≠ "") :
    (if c then X else d).Version = b ∨ (if c then X else d).Version ≠ "" := by
  split
  · rw [h]; exact hd
  · exact hd

theorem verStep_fam {c c2 : Prop} [Decidable c] [Decidable c2] {d X1 X2 : ServerInfo}
    (b : String) (h1 : X1.Version = d.Version) (h2 : c2 → X2.Version ≠ "")
    (hd : d.Version = b ∨ d.Version ≠ "") :
    (if c then (if c2 then X2 else X1) else d).Version = b ∨
    (if c then (if c2 then X2 else X1) else d).Version ≠ "" := by
  split
  · split
    · next hc2 => exact Or.inr (h2 hc2)
    · rw [h1]; exact hd
  · exact hd

theorem extractLoop_inV (l : List Char) : ∀ acc : String,
    extractLoop l true acc = ⟨acc.data ++ l.takeWhile isVerChar⟩ := by
  induction l with
  | nil => intro acc; cases acc; simp [extractLoop]
  | cons c cs ih =>
    intro acc
    cases hc : isVerChar c with
    | true =>
      simp [extractLoop, hc, ih, String.push, List.takeWhile_cons_of_pos]
    | false =>
      cases acc
      simp [extractLoop, hc, List.takeWhile_cons_of_neg]

theorem extractLoop_notInV (l : List Char) : ∀ acc : String,
    extractLoop l false acc =
      ⟨acc.data ++ (l.dropWhile (fun c => !isVerChar c)).takeWhile isVerChar⟩ := by
  induction l with
  | nil => intro acc; cases acc; simp [extractLoop]
  | cons c cs ih =>
    intro acc
    cases hc : isVerChar c with
    | true =>
      simp [extractLoop, hc, extractLoop_inV, String.push,
        List.dropWhile_cons, List.takeWhile_cons_of_pos]
    | false =>
      simp [extractLoop, hc, ih, List.dropWhile_cons]

theorem analyzeServerHeader_version (server : String) (info : ServerInfo) :
    (analyzeServerHeader server info).Version = info.Version ∨
    (analyzeServerHeader server info).Version ≠ "" := by
  simp only [analyzeServerHeader]
  refine verStep_id _ rfl ?_
  refine verStep_id _ rfl ?_
  refine verStep_fam _ rfl (fun hg => by simpa using hg) ?_
  refine verStep_fam _ rfl (fun hg => by simpa using hg) ?_
  refine verStep_fam _ rfl (fun hg => by simpa using hg) ?_
  refine verStep_fam _ rfl (fun hg => by simpa using hg) ?_
  exact Or.inl rfl

/-- C7 counterexample: in "nginx (Ubuntu) 1.2.3" the characters "(Ubuntu)"
are not among the separators /, - and space, so under the claimed rule no
version run can begin and the Version would stay "Unknown"; the code skips
every character before the first digits/dots run and extracts "1.2.3". -/
theorem extractVersion_skips_nonseparators :
    extractVersion "nginx (Ubuntu) 1.2.3" "nginx" = "1.2.3" ∧
    specExtractVersion "nginx (Ubuntu) 1.2.3" "nginx" = "" ∧
    (FingerprintServer (Header.ofList [("Server", ["nginx (Ubuntu) 1.2.3"])])).Version =
      "1.2.3" ∧
    ("1.2.3" : String) ≠ "Unknown" :=
  ⟨by decide, by decide, by decide, by decide⟩

/-- C7 amended: the extracted version is the first maximal contiguous run
of digits and dots at or after the end of the matched family token — every
character before the run begins is skipped, not only the separators /, -
and space; and analyzeServerHeader either leaves Version unchanged (absent
or empty extraction: "Unknown" stays) or sets it to a non-empty extracted
run, never erring. -/
theorem extractVersion_first_run_rule :
    (∀ server serverType : String,
      extractVersion server serverType = firstRunExtractVersion server serverType) ∧
    (∀ (server : String) (info : ServerInfo),
      (analyzeServerHeader server info).Version = info.Version ∨
      (analyzeServerHeader server info).Version ≠ "") := by
  constructor
  · intro server serverType
    simp only [extractVersion, firstRunExtractVersion]
    cases hidx : stringIndex (goToLower server) (goToLower serverType) with
    | none => rfl
    | some typeIndex =>
      dsimp only
      by_cases hge : typeIndex + serverType.length ≥ server.length
      · rw [if_pos hge]
        have hdrop : server.toList.drop (typeIndex + serverType.length) = [] :=
          List.drop_eq_nil_of_le hge
        rw [hdrop]
        rfl
      · rw [if_neg hge, extractLoop_notInV]
        simp
  · exact analyzeServerHeader_version

theorem vStep (c : Prop) [Decidable c] (d X : ServerInfo) (b : String)
    (hX : X.Version = d.Version) (hd : d.Version = b) :
    (if c then X else d).Version = b := by
  split
  · exact hX.trans hd
  · exact hd

theorem pbStep (c : Prop) [Decidable c] (d X : ServerInfo) (b : String)
    (hX : X.PoweredBy = d.PoweredBy) (hd : d.PoweredBy = b) :
    (if c then X else d).PoweredBy = b := by
  split
  · exact hX.trans hd
  · exact hd

theorem analyzePoweredBy_version (p : String) (i : ServerInfo) :
    (analyzePoweredByHeader p i).Version = i.Version := by
  simp only [analyzePoweredByHeader]
  refine vStep _ _ _ _ (by split_ifs <;> rfl) ?_
  refine vStep _ _ _ _ (by split_ifs <;> rfl) ?_
  rfl

theorem analyzePoweredBy_poweredBy (p : String) (i : ServerInfo) :
    (analyzePoweredByHeader p i).PoweredBy = i.PoweredBy := by
  simp only [analyzePoweredByHeader]
  refine pbStep _ _ _ _ (by split_ifs <;> rfl) ?_
  refine pbStep _ _ _ _ (by split_ifs <;> rfl) ?_
  rfl

theorem detectLoadBalancer_version (h : Header) (i : ServerInfo) :
    (detectLoadBalancer h i).Version = i.Version := by
  simp only [detectLoadBalancer]
  refine vStep _ _ _ _ rfl ?_
  refine vStep _ _ _ _ rfl ?_
  refine vStep _ _ _ _ rfl ?_
  refine vStep _ _ _ _ rfl ?_
  rfl

theorem detectLoadBalancer_poweredBy (h : Header) (i : ServerInfo) :
    (detectLoadBalancer h i).PoweredBy = i.PoweredBy := by
  simp only [detectLoadBalancer]
  refine pbStep _ _ _ _ rfl ?_
  refine pbStep _ _ _ _ rfl ?_
  refine pbStep _ _ _ _ rfl ?_
  refine pbStep _ _ _ _ rfl ?_
  rfl

theorem analyzeServerHeader_poweredBy (server : String) (i : ServerInfo) :
    (analyzeServerHeader server i).PoweredBy = i.PoweredBy := by
  simp only [analyzeServerHeader]
  refine pbStep _ _ _ _ rfl ?_
  refine pbStep _ _ _ _ rfl ?_
  refine pbStep _ _ _ _ (by split_ifs <;> rfl) ?_
  refine pbStep _ _ _ _ (by split_ifs <;> rfl) ?_
  refine pbStep _ _ _ _ (by split_ifs <;> rfl) ?_
  refine pbStep _ _ _ _ (by split_ifs <;> rfl) ?_
  rfl

theorem fingerprintAfterServer_version (h : Header) :
    (fingerprintAfterServer h).Version = "Unknown" ∨
    (fingerprintAfterServer h).Version ≠ "" := by
  unfold fingerprintAfterServer
  split
  · simpa [fingerprintBase] using
      analyzeServerHeader_version (h.get "Server") fingerprintBase
  · exact Or.inl rfl

theorem fingerprintCore_version_ne (h : Header) : (fingerprintCore h).Version ≠ "" := by
  have h1 : (fingerprintCore h).Version = (fingerprintAfterPoweredBy h).Version :=
    detectLoadBalancer_version h (fingerprintAfterPoweredBy h)
  have h2 : (fingerprintAfterPoweredBy h).Version = (fingerprintAfterServer h).Version := by
    unfold fingerprintAfterPoweredBy
    split
    · exact analyzePoweredBy_version _ _
    · rfl
  rw [h1, h2]
  rcases fingerprintAfterServer_version h with hu | hne
  · rw [hu]; decide
  · exact hne

theorem fingerprintAfterServer_poweredBy (h : Header) :
    (fingerprintAfterServer h).PoweredBy = "Unknown" := by
  unfold fingerprintAfterServer
  split
  · exact (analyzeServerHeader_poweredBy _ _).trans rfl
  · rfl

theorem fingerprintCore_poweredBy_ne (h : Header) : (fingerprintCore h).PoweredBy ≠ "" := by
  have h1 : (fingerprintCore h).PoweredBy = (fingerprintAfterPoweredBy h).PoweredBy :=
    detectLoadBalancer_poweredBy h (fingerprintAfterPoweredBy h)
  rw [h1]
  unfold fingerprintAfterPoweredBy
  split
  · next hg =>
    rw [analyzePoweredBy_poweredBy]
    simpa using hg
  · rw [fingerprintAfterServer_poweredBy]
    decide

theorem calc_confidence_eq_spec (info : ServerInfo) (h : Header)
    (hv : info.Version ≠ "") (hp : info.PoweredBy ≠ "") :
    calculateConfidence info h = specConfidenceTier (specFingerprintScore info) := by
  simp only [calculateConfidence, specConfidenceTier, specFingerprintScore]
  simp [hv, hp]

/-- C8: the fingerprint confidence equals the tier of the additive score
+30 for known ServerType, +25 for known Version, +20 for known Platform,
+15 for known PoweredBy, +10 for known LoadBalancer ("known" = not
"Unknown"), with High iff score ≥ 70, Medium iff 40 ≤ score < 70, else
Low. -/
theorem fingerprint_confidence_additive (h : Header) :
    (FingerprintServer h).Confidence =
      specConfidenceTier (specFingerprintScore (FingerprintServer h)) := by
  have hs : specFingerprintScore (FingerprintServer h) =
      specFingerprintScore (fingerprintCore h) := rfl
  have hc : (FingerprintServer h).Confidence =
      calculateConfidence (fingerprintCore h) h := rfl
  rw [hc, hs]
  exact calc_confidence_eq_spec (fingerprintCore h) h
    (fingerprintCore_version_ne h) (fingerprintCore_poweredBy_ne h)
